import Mathlib

/-!
# Layout constants of the AArch64 pre-kstart bootstrap

A shallow embedding of `src/arch/aarch64/init/pre_kstart/helpers/consts.h`.
Every object-like macro of the header becomes a `Nat` definition of the same
name whose body is the macro's replacement text.  The header is consumed by
the assembler, which evaluates integer expressions in 64 bits, so the
operators that can leave the 64-bit range (`<<`, `~`) are embedded with an
explicit reduction modulo `2 ^ 64`.

The `#ifdef DEBUG_UART` switch is a `Bool`: macros defined on both branches
take it as an argument, macros that exist only on the `DEBUG_UART` branch are
plain constants whose doc comment says so.
-/

namespace Consts

/-! ## 64-bit operators -/

/-- Width of the assembler's integer arithmetic. -/
def WORD_BITS : Nat := 64

/-- The C operator `x << n`, truncated to 64 bits. -/
def shl64 (x n : Nat) : Nat := (x <<< n) % 2 ^ WORD_BITS

/-- The C operator `~x` on a 64-bit word. -/
def not64 (x : Nat) : Nat := (2 ^ WORD_BITS - 1) - x % 2 ^ WORD_BITS

/-! ## Unconditional macros (consts.h lines 1-30) -/

def PAGE_SIZE : Nat := 4096
def BLOCK_SIZE : Nat := 0x40000000
def VIRT_BITS : Nat := 48

def DTB_VBASE : Nat := 0xfffffd0000000000
def DTB_MAX_SIZE : Nat := 0x200000

def ENV_VBASE : Nat := 0xfffffc0000000000
def ENV_MAX_SIZE : Nat := PAGE_SIZE

def EARLY_KSTACK_SIZE : Nat := PAGE_SIZE

def SCTLR_M : Nat := 0x00000001

def DEVICE_MEM : Nat := 0
def NORMAL_UNCACHED_MEM : Nat := 1
def NORMAL_CACHED_MEM : Nat := 2

def DESC_VALID_BIT : Nat := 0
def DESC_VALID : Nat := 1
def DESC_INVALID : Nat := 0

def DESC_TYPE_BIT : Nat := 1
def DESC_TYPE_TABLE : Nat := 1
def DESC_TYPE_PAGE : Nat := 1
def DESC_TYPE_BLOCK : Nat := 0

/-- The macro `(~((0xffff << 48) | (0xffff)))`. -/
def BLOCK_DESC_MASK : Nat := not64 (shl64 0xffff 48 ||| 0xffff)

/-- The macro `(1 << 10)`. -/
def ACCESS_FLAG_BIT : Nat := shl64 1 10

/-! ## Macros of the `#ifdef DEBUG_UART` block (consts.h lines 34-47) -/

/-- Defined only when `DEBUG_UART` is. -/
def DEVMAP_PBASE : Nat := 0x00000000

/-- Defined only when `DEBUG_UART` is. -/
def DEVMAP_SIZE : Nat := 0x40000000

/-- Defined only when `DEBUG_UART` is. -/
def UART_VBASE : Nat := 0xfffffe0009000000

/-- Defined only when `DEBUG_UART` is. -/
def UART_PBASE : Nat := 0x09000000

/-- Defined only when `DEBUG_UART` is. -/
def UART_SIZE : Nat := 0x2000

/-- The macro defined on both branches of `#ifdef DEBUG_UART`:
13 with the switch, 12 without. -/
def NUM_L2_TABLES (DEBUG_UART : Bool) : Nat :=
  if DEBUG_UART then 13 else 12

/-- The breakdown written in the comment next to `NUM_L2_TABLES`
("2 L0, 5 L1, 5 L2, 1 env"), as the list of the four counts. -/
def TABLE_BREAKDOWN : List Nat := [2, 5, 5, 1]

/-! ## Derived notions used by the properties -/

/-- A virtual window: base address and size in bytes. -/
structure Window where
  base : Nat
  size : Nat
deriving DecidableEq, Repr

/-- Address `a` lies in the half-open range `[base, base + size)`. -/
def Window.contains (w : Window) (a : Nat) : Prop :=
  w.base ≤ a ∧ a < w.base + w.size

instance (w : Window) (a : Nat) : Decidable (w.contains a) := by
  unfold Window.contains
  infer_instance

/-- First address past the window. -/
def Window.stop (w : Window) : Nat := w.base + w.size

def DTB_WINDOW : Window := ⟨DTB_VBASE, DTB_MAX_SIZE⟩
def ENV_WINDOW : Window := ⟨ENV_VBASE, ENV_MAX_SIZE⟩

/-- Exists only when `DEBUG_UART` is defined. -/
def UART_WINDOW : Window := ⟨UART_VBASE, UART_SIZE⟩

/-- Physical register range of the UART (only with `DEBUG_UART`). -/
def UART_PHYS : Window := ⟨UART_PBASE, UART_SIZE⟩

/-- Physical device region (only with `DEBUG_UART`). -/
def DEVMAP_PHYS : Window := ⟨DEVMAP_PBASE, DEVMAP_SIZE⟩

/-- The fixed virtual windows the header lays out for a build. -/
def fixedWindows (DEBUG_UART : Bool) : List Window :=
  [DTB_WINDOW, ENV_WINDOW] ++ (if DEBUG_UART then [UART_WINDOW] else [])

/-- Number of 64-bit descriptors in one `PAGE_SIZE` translation table. -/
def TABLE_ENTRIES : Nat := PAGE_SIZE / 8

/-- The three memory-type classes. -/
inductive MemType where
  | device
  | normalUncached
  | normalCached
deriving DecidableEq, Repr

/-- Attribute index of a memory-type class, as the header assigns it. -/
def MemType.index : MemType → Nat
  | .device => DEVICE_MEM
  | .normalUncached => NORMAL_UNCACHED_MEM
  | .normalCached => NORMAL_CACHED_MEM

/-- Control bits of a descriptor:
`(v << DESC_VALID_BIT) | (t << DESC_TYPE_BIT)`. -/
def descCtl (v t : Nat) : Nat :=
  shl64 v DESC_VALID_BIT ||| shl64 t DESC_TYPE_BIT

/-- A block or table descriptor for output address `P`:
`P | ACCESS_FLAG_BIT | (t << DESC_TYPE_BIT) | (v << DESC_VALID_BIT)`. -/
def mkDesc (P t v : Nat) : Nat :=
  ((P ||| ACCESS_FLAG_BIT) ||| shl64 t DESC_TYPE_BIT) ||| shl64 v DESC_VALID_BIT

/-! ## Auxiliary lemmas -/

/-- The mask value has exactly the bits 16..47 set. -/
theorem testBit_mask_value (i : Nat) :
    (0x0000ffffffff0000 : Nat).testBit i = (decide (16 ≤ i) && decide (i < 48)) := by
  have hm : (0x0000ffffffff0000 : Nat) = 2 ^ 16 * (2 ^ 32 - 1) := by norm_num
  rw [hm, Nat.testBit_mul_pow_two, Nat.testBit_two_pow_sub_one]
  by_cases h16 : 16 ≤ i
  · by_cases h48 : i < 48
    · have : i - 16 < 32 := by omega
      simp [h16, h48, this]
    · have : ¬ i - 16 < 32 := by omega
      simp [h16, h48, this]
  · simp [h16]

/-- Masking with bits 16..47 drops any low control bits `c < 2 ^ 16` and keeps
an address made of bits 30..47 only. -/
theorem lor_land_mask_value (P c : Nat) (hdiv : 2 ^ 30 ∣ P) (hlt : P < 2 ^ 48)
    (hc : c < 2 ^ 16) : (P ||| c) &&& 0x0000ffffffff0000 = P := by
  apply Nat.eq_of_testBit_eq
  intro i
  rw [Nat.testBit_and, Nat.testBit_or, testBit_mask_value]
  by_cases h16 : 16 ≤ i
  · have hci : c.testBit i = false :=
      Nat.testBit_lt_two_pow (lt_of_lt_of_le hc (Nat.pow_le_pow_right (by norm_num) h16))
    by_cases h48 : i < 48
    · simp [hci, h16, h48]
    · have hPi : P.testBit i = false :=
        Nat.testBit_lt_two_pow
          (lt_of_lt_of_le hlt (Nat.pow_le_pow_right (by norm_num) (by omega)))
      simp [hci, hPi]
  · have hPi : P.testBit i = false := by
      obtain ⟨k, rfl⟩ := hdiv
      rw [Nat.testBit_mul_pow_two]
      have : ¬ i ≥ 30 := by omega
      simp [this]
    simp [hPi, h16]

/-- A table of `PAGE_SIZE` bytes indexes 9 address bits. -/
theorem log2_table_entries : Nat.log2 TABLE_ENTRIES = 9 := by
  have h : TABLE_ENTRIES = 2 ^ 9 := by norm_num [TABLE_ENTRIES, PAGE_SIZE]
  rw [h, Nat.log2_eq_log_two, Nat.log_pow (by norm_num)]

/-- A page has a 12-bit offset. -/
theorem log2_page_size : Nat.log2 PAGE_SIZE = 12 := by
  have h : PAGE_SIZE = 2 ^ 12 := by norm_num [PAGE_SIZE]
  rw [h, Nat.log2_eq_log_two, Nat.log_pow (by norm_num)]

/-- A block has a 30-bit offset. -/
theorem log2_block_size : Nat.log2 BLOCK_SIZE = 30 := by
  have h : BLOCK_SIZE = 2 ^ 30 := by norm_num [BLOCK_SIZE]
  rw [h, Nat.log2_eq_log_two, Nat.log_pow (by norm_num)]

/-- The mask macro, evaluated in 64 bits. -/
theorem block_desc_mask_value : BLOCK_DESC_MASK = 0x0000ffffffff0000 := by
  decide

/-! ## Properties -/

/-- C1: with `DEBUG_UART` the table count is the count without it plus one. -/
theorem num_l2_tables_debug_uart_succ :
    NUM_L2_TABLES true = NUM_L2_TABLES false + 1 := by
  decide

/-- C2: in either build, every fixed virtual window ends below `2 ^ 64`, and
no address lies in two different windows of the layout. -/
theorem fixed_windows_disjoint_no_wrap (DEBUG_UART : Bool) :
    (∀ w ∈ fixedWindows DEBUG_UART, w.stop < 2 ^ 64) ∧
    (fixedWindows DEBUG_UART).Pairwise
      (fun w1 w2 => ∀ a : Nat, ¬ (w1.contains a ∧ w2.contains a)) := by
  cases DEBUG_UART
  · simp [fixedWindows, DTB_WINDOW, ENV_WINDOW, Window.stop, Window.contains,
      DTB_VBASE, DTB_MAX_SIZE, ENV_VBASE, ENV_MAX_SIZE, PAGE_SIZE]
    intros
    omega
  · simp [fixedWindows, DTB_WINDOW, ENV_WINDOW, UART_WINDOW, Window.stop, Window.contains,
      DTB_VBASE, DTB_MAX_SIZE, ENV_VBASE, ENV_MAX_SIZE, UART_VBASE, UART_SIZE, PAGE_SIZE]
    refine ⟨⟨?_, ?_⟩, ?_⟩ <;> intros <;> omega

/-- C3: the window bases (and the UART physical base) are multiples of
`PAGE_SIZE`, the four sizes are positive whole multiples of `PAGE_SIZE`, and
the environment window and the early stack are exactly one page. -/
theorem windows_page_granular :
    (PAGE_SIZE ∣ DTB_VBASE ∧ PAGE_SIZE ∣ ENV_VBASE ∧
      PAGE_SIZE ∣ UART_VBASE ∧ PAGE_SIZE ∣ UART_PBASE) ∧
    ((0 < DTB_MAX_SIZE ∧ PAGE_SIZE ∣ DTB_MAX_SIZE) ∧
      (0 < ENV_MAX_SIZE ∧ PAGE_SIZE ∣ ENV_MAX_SIZE) ∧
      (0 < EARLY_KSTACK_SIZE ∧ PAGE_SIZE ∣ EARLY_KSTACK_SIZE) ∧
      (0 < UART_SIZE ∧ PAGE_SIZE ∣ UART_SIZE)) ∧
    (ENV_MAX_SIZE = PAGE_SIZE ∧ EARLY_KSTACK_SIZE = PAGE_SIZE) := by
  decide

/-- C4: a table holds a power-of-two number of descriptors, a block is a power
of two bytes, and two table indices plus the block offset make up exactly
`VIRT_BITS` bits. -/
theorem block_walk_covers_virt_bits :
    TABLE_ENTRIES = 2 ^ Nat.log2 TABLE_ENTRIES ∧
    BLOCK_SIZE = 2 ^ Nat.log2 BLOCK_SIZE ∧
    Nat.log2 TABLE_ENTRIES + Nat.log2 TABLE_ENTRIES + Nat.log2 BLOCK_SIZE = VIRT_BITS := by
  rw [log2_table_entries, log2_block_size]
  decide

/-- C5, as stated, fails: three table indices plus a page offset do not add up
to `VIRT_BITS`. -/
theorem page_walk_three_levels_short :
    ¬ (3 * Nat.log2 TABLE_ENTRIES + Nat.log2 PAGE_SIZE = VIRT_BITS) := by
  rw [log2_table_entries, log2_page_size]
  decide

/-- C5, amended: three table indices plus a page offset resolve 39 bits, one
table index short of `VIRT_BITS`; four table indices plus a page offset
resolve all `VIRT_BITS` bits. -/
theorem page_walk_resolved_bits :
    3 * Nat.log2 TABLE_ENTRIES + Nat.log2 PAGE_SIZE = 39 ∧
    3 * Nat.log2 TABLE_ENTRIES + Nat.log2 PAGE_SIZE + Nat.log2 TABLE_ENTRIES = VIRT_BITS ∧
    4 * Nat.log2 TABLE_ENTRIES + Nat.log2 PAGE_SIZE = VIRT_BITS := by
  rw [log2_table_entries, log2_page_size]
  decide

/-- C6: the three memory classes have the indices 0, 1, 2, the class-to-index
map is injective, and every index is below 8. -/
theorem mem_type_index_injective_bounded :
    (DEVICE_MEM = 0 ∧ NORMAL_UNCACHED_MEM = 1 ∧ NORMAL_CACHED_MEM = 2) ∧
    (DEVICE_MEM ≠ NORMAL_UNCACHED_MEM ∧ DEVICE_MEM ≠ NORMAL_CACHED_MEM ∧
      NORMAL_UNCACHED_MEM ≠ NORMAL_CACHED_MEM) ∧
    Function.Injective MemType.index ∧
    ∀ m : MemType, m.index < 8 := by
  refine ⟨by decide, by decide, ?_, ?_⟩
  · intro a b h
    cases a <;> cases b <;> first | rfl | exact absurd h (by decide)
  · intro m
    cases m <;> decide

/-- C7: the device region is block aligned and block sized, the UART register
range lies inside it, and the UART virtual and physical bases have the same
offset inside a block, equal to the offset from the device region base. -/
theorem uart_window_offset_consistent :
    (BLOCK_SIZE ∣ DEVMAP_PBASE ∧ BLOCK_SIZE ∣ DEVMAP_SIZE) ∧
    (DEVMAP_PBASE ≤ UART_PBASE ∧ UART_PBASE + UART_SIZE ≤ DEVMAP_PBASE + DEVMAP_SIZE) ∧
    (∀ a : Nat, UART_PHYS.contains a → DEVMAP_PHYS.contains a) ∧
    UART_VBASE % BLOCK_SIZE = UART_PBASE % BLOCK_SIZE ∧
    UART_PBASE % BLOCK_SIZE = UART_PBASE - DEVMAP_PBASE := by
  refine ⟨by decide, by decide, ?_, by decide, by decide⟩
  intro a h
  simp only [Window.contains, UART_PHYS, DEVMAP_PHYS, UART_PBASE, UART_SIZE, DEVMAP_PBASE,
    DEVMAP_SIZE] at h ⊢
  omega

/-- C8, as stated, fails: without `DEBUG_UART` the table count cannot both be
12 and equal the total of the breakdown in its comment. -/
theorem num_l2_tables_not_breakdown_total :
    ¬ (NUM_L2_TABLES false = 12 ∧ NUM_L2_TABLES false = TABLE_BREAKDOWN.sum) := by
  decide

/-- C8, amended: without `DEBUG_UART` the table count is 12, and the breakdown
in its comment (2 L0, 5 L1, 5 L2, 1 env) totals 13, one more than the count. -/
theorem num_l2_tables_breakdown_off_by_one :
    NUM_L2_TABLES false = 12 ∧ TABLE_BREAKDOWN = [2, 5, 5, 1] ∧
    TABLE_BREAKDOWN.sum = 13 ∧
    NUM_L2_TABLES false + 1 = TABLE_BREAKDOWN.sum := by
  decide

/-- C9: the block mask is `0x0000ffffffff0000`, its set bits are exactly bits
16..47, the access flag, type bit and valid bit lie outside it, and masking a
descriptor built on a block-aligned address below `2 ^ VIRT_BITS` gives the
address back. -/
theorem block_desc_mask_keeps_address (P v t : Nat)
    (hP : BLOCK_SIZE ∣ P) (hlt : P < 2 ^ VIRT_BITS)
    (hv : v = DESC_INVALID ∨ v = DESC_VALID)
    (ht : t = DESC_TYPE_BLOCK ∨ t = DESC_TYPE_TABLE) :
    BLOCK_DESC_MASK = 0x0000ffffffff0000 ∧
    (∀ i : Nat, BLOCK_DESC_MASK.testBit i = true ↔ 16 ≤ i ∧ i ≤ 47) ∧
    (ACCESS_FLAG_BIT &&& BLOCK_DESC_MASK = 0 ∧
      shl64 1 DESC_TYPE_BIT &&& BLOCK_DESC_MASK = 0 ∧
      shl64 1 DESC_VALID_BIT &&& BLOCK_DESC_MASK = 0) ∧
    mkDesc P t v &&& BLOCK_DESC_MASK = P := by
  refine ⟨block_desc_mask_value, ?_, by decide, ?_⟩
  · intro i
    rw [block_desc_mask_value, testBit_mask_value]
    simp only [Bool.and_eq_true, decide_eq_true_eq]
    omega
  · have hdiv : 2 ^ 30 ∣ P := by simpa [BLOCK_SIZE] using hP
    have hlt2 : P < 2 ^ 48 := by simpa [VIRT_BITS] using hlt
    rw [block_desc_mask_value]
    unfold mkDesc
    rw [Nat.lor_assoc, Nat.lor_assoc]
    apply lor_land_mask_value P _ hdiv hlt2
    rcases hv with rfl | rfl <;> rcases ht with rfl | rfl <;> decide

/-- C9 at the address of the second block, for a valid block descriptor. -/
theorem block_desc_mask_keeps_address_witness :
    BLOCK_SIZE ∣ 0x40000000 ∧ 0x40000000 < 2 ^ VIRT_BITS ∧
    mkDesc 0x40000000 DESC_TYPE_BLOCK DESC_VALID &&& BLOCK_DESC_MASK = 0x40000000 :=
  ⟨by decide, by decide,
    (block_desc_mask_keeps_address 0x40000000 DESC_VALID DESC_TYPE_BLOCK (by decide) (by decide)
      (Or.inr rfl) (Or.inl rfl)).2.2.2⟩

/-- C10: the type encoding separates a block from a table and from a page but
not a table from a page, the type and valid bits are different positions, and
the low two bits of the control bits are `0b01` for a valid block, `0b11` for
a valid table or page, while an invalid descriptor has bit 0 clear. -/
theorem desc_type_encoding :
    (DESC_TYPE_BLOCK ≠ DESC_TYPE_TABLE ∧ DESC_TYPE_BLOCK ≠ DESC_TYPE_PAGE ∧
      DESC_TYPE_TABLE = DESC_TYPE_PAGE) ∧
    (DESC_TYPE_BIT ≠ DESC_VALID_BIT ∧ DESC_VALID ≠ DESC_INVALID) ∧
    (descCtl DESC_VALID DESC_TYPE_BLOCK % 4 = 0b01 ∧
      descCtl DESC_VALID DESC_TYPE_TABLE % 4 = 0b11 ∧
      descCtl DESC_VALID DESC_TYPE_PAGE % 4 = 0b11) ∧
    ∀ t : Nat, (descCtl DESC_INVALID t).testBit 0 = false := by
  refine ⟨by decide, by decide, by decide, ?_⟩
  intro t
  simp [descCtl, shl64, DESC_INVALID, DESC_VALID_BIT, DESC_TYPE_BIT, WORD_BITS]
  rw [Nat.shiftLeft_eq]
  omega

end Consts
